import Mathlib

/-!
# Verification of the Blackcoffer NLP analysis engine

Shallow embedding of `src/src/analysis/test_analysis.py` (class `TextAnalyzer`
and the batch `main` driver), together with theorems settling the frozen
specification claims.

Modelling conventions:
* Python `float` arithmetic is embedded as `ℚ` (exact rationals); the epsilon
  constant `0.000001` becomes `1/1000000`.
* Python `set` objects are embedded as `List String` with membership lookup
  (only membership and cardinality-free counting are ever used).
* The regular-expression word-boundary semantics of `re.findall` over the
  word-character class `[A-Za-z0-9_]` is embedded by splitting text into
  maximal runs of word characters: a `\b pat \b` match is exactly a maximal
  run equal to `pat` (ASCII texts; claims only concern ASCII behaviour).
* The external NLTK tokenizers (`sent_tokenize`, `word_tokenize`) are not
  repository code; universal theorems quantify over arbitrary tokenizer
  functions, and concrete test inputs use simple models noted at their
  definitions.
-/

namespace Blackcoffer

/-! ## Models of the Python string primitives

Lean's `String` library routines (`String.toLower`, `String.endsWith`, …)
do not reduce in the kernel, so the Python primitives are modelled
characterwise on `String.data`. -/

/-- Python `str.lower()` (ASCII fragment), modelled characterwise. -/
def pyLower (s : String) : String := String.mk (s.data.map Char.toLower)

/-- Python `s.endswith(suf)`, modelled on character lists. -/
def pyEndsWith (s suf : String) : Bool := suf.data.isSuffixOf s.data

/-- Python `str.strip()`: drop whitespace from both ends. -/
def pyStrip (s : String) : String :=
  String.mk
    (((s.data.dropWhile Char.isWhitespace).reverse.dropWhile
        Char.isWhitespace).reverse)

/-- Python `str.isalpha()` (ASCII fragment): non-empty and all alphabetic. -/
def pyIsAlpha (s : String) : Bool := !s.data.isEmpty && s.data.all Char.isAlpha

/-- Python `len` of a string: its number of characters. -/
def pyLen (s : String) : Nat := s.data.length

/-! ## count_syllables (test_analysis.py lines 100-124) -/

/-- The vowel characters used by `count_syllables` (`vowels = "aeiouy"`). -/
def isVowel (c : Char) : Bool :=
  c == 'a' || c == 'e' || c == 'i' || c == 'o' || c == 'u' || c == 'y'

/-- The character loop of `count_syllables`: walk the characters carrying
`previous_was_vowel`, adding 1 on each transition into a vowel. -/
def syllableScan : List Char → Bool → Nat
  | [], _ => 0
  | c :: cs, prev =>
    let v := isVowel c
    (if v && !prev then 1 else 0) + syllableScan cs v

/-- `TextAnalyzer.count_syllables`: lower-case the word, count vowel-group
transitions, subtract 1 if the word ends in `"es"` or `"ed"`, clamp to a
minimum of 1.  The subtraction is done in `Int` exactly as Python does. -/
def count_syllables (word : String) : Nat :=
  let w := pyLower word
  let n : Int := syllableScan w.data false
  let n' : Int := if pyEndsWith w "es" || pyEndsWith w "ed" then n - 1 else n
  (max n' 1).toNat

/-- Reference definition from the spec: the number of *maximal runs* of
consecutive vowel characters in a character list, computed by walking each
run with `dropWhile`. -/
def vowelRuns (cs : List Char) : Nat :=
  match cs with
  | [] => 0
  | c :: rest =>
    if isVowel c then 1 + vowelRuns (rest.dropWhile (fun d => isVowel d))
    else vowelRuns rest
termination_by cs.length
decreasing_by
  · simp only [List.length_cons]
    exact Nat.lt_succ_of_le (List.dropWhile_sublist _).length_le
  · simp

/-- Reference definition from the spec (§4.3 step 9): lower-case the word,
count maximal vowel runs, subtract 1 for an `"es"`/`"ed"` suffix, clamp the
result to a minimum of 1. -/
def syllableCountSpec (word : String) : Nat :=
  let w := pyLower word
  let n : Int := vowelRuns w.data
  let n' : Int := if pyEndsWith w "es" || pyEndsWith w "ed" then n - 1 else n
  (max n' 1).toNat

/-! ## count_personal_pronouns (test_analysis.py lines 126-139)

`re.findall` with word-boundary patterns is embedded via maximal runs of
word characters (the regex word class `[A-Za-z0-9_]`, ASCII fragment): a
whole-word match of an alternative is exactly a maximal run equal to it. -/

/-- A regex word character: alphanumeric or underscore (ASCII fragment). -/
def isWordChar (c : Char) : Bool := c.isAlphanum || c == '_'

/-- Split a character list into maximal runs of characters satisfying `p`:
walk the characters, accumulating the current run (reversed) and emitting
it whenever a character outside `p` ends it. -/
def runsAux (p : Char → Bool) : List Char → List Char → List (List Char)
  | [], cur => if cur.isEmpty then [] else [cur.reverse]
  | c :: cs, cur =>
    if p c then runsAux p cs (c :: cur)
    else if cur.isEmpty then runsAux p cs []
    else cur.reverse :: runsAux p cs []

/-- The maximal runs of word characters of a character list. -/
def wordRuns (cs : List Char) : List (List Char) := runsAux isWordChar cs []

/-- The pronoun alternatives of the pattern `\b(I|we|my|ours|us)\b`,
lower-cased for the `re.IGNORECASE` comparison. -/
def pronounWords : List String := ["i", "we", "my", "ours", "us"]

/-- Number of case-insensitive whole-word matches of
`\b(I|we|my|ours|us)\b` in `text`: maximal word-character runs whose
lower-casing is one of the alternatives. -/
def pronounMatchCount (text : String) : Nat :=
  ((wordRuns text.data).filter
    (fun r => pronounWords.contains (String.mk (r.map Char.toLower)))).length

/-- Number of case-sensitive whole-word matches of `\bUS\b` in `text`:
maximal word-character runs equal to `US`. -/
def usMatchCount (text : String) : Nat :=
  ((wordRuns text.data).filter (fun r => String.mk r == "US")).length

/-- `TextAnalyzer.count_personal_pronouns`: case-insensitive pronoun matches
minus case-sensitive `US` matches, floored at 0 (`max(0, total_count)`). -/
def count_personal_pronouns (text : String) : Nat :=
  (max 0 ((pronounMatchCount text : Int) - (usMatchCount text : Int))).toNat

/-! ## Tokenizer models

The repository delegates tokenization to NLTK (`sent_tokenize`,
`word_tokenize`), which is an external library, not repository code.
Universal theorems therefore quantify over arbitrary tokenizer functions;
the models below are used only to instantiate concrete spec examples. -/

/-- Modelled from the spec: sentence segmentation (§4.2, "standard
sentence-boundary segmentation"; the repo calls NLTK `sent_tokenize`,
which is external).  Split on sentence-final punctuation, trim the pieces,
drop empty ones. -/
def sentTokenizeModel (text : String) : List String :=
  ((runsAux (fun c => !(c == '.' || c == '!' || c == '?')) text.data []).map
    (fun cs => pyStrip (String.mk cs))).filter (fun s => !s.data.isEmpty)

/-- Modelled from the spec: word tokenization (§4.2; the repo calls NLTK
`word_tokenize`, which is external).  Maximal runs of alphabetic
characters — adequate for the `isalpha` filter applied right after. -/
def wordTokenizeModel (text : String) : List String :=
  (runsAux Char.isAlpha text.data []).map String.mk

/-! ## The data model (spec §3) -/

/-- The three word sets loaded once at startup (`self.stopwords`,
`self.positive_words`, `self.negative_words`).  Python `set` objects are
modelled as lists; only membership is ever queried. -/
structure Lexicon where
  stopwords : List String
  positiveWords : List String
  negativeWords : List String
deriving DecidableEq

/-- The 13 metrics returned by `analyze_text` (dictionary keys in source
order).  Python `int` fields are `Nat`, `float` fields are `ℚ`. -/
structure Metrics where
  positiveScore : Nat
  negativeScore : Nat
  polarityScore : ℚ
  subjectivityScore : ℚ
  avgSentenceLength : ℚ
  percentageComplexWords : ℚ
  fogIndex : ℚ
  avgWordsPerSentence : ℚ
  complexWordCount : Nat
  wordCount : Nat
  syllablePerWord : ℚ
  personalPronouns : Nat
  avgWordLength : ℚ
deriving DecidableEq

/-! ## analyze_text (test_analysis.py lines 141-213)

The stages of the pipeline are named definitions so theorems can refer to
them; `analyze_text` assembles them exactly as the source does.
`words0` stands for the raw `word_tokenize(text)` output. -/

/-- `epsilon = 0.000001` (line 164). -/
def epsilon : ℚ := 1 / 1000000

/-- `words = [word for word in words if word.isalpha()]` (line 154). -/
def wordsOf (words0 : List String) : List String := words0.filter pyIsAlpha

/-- `words_lower = [word.lower() for word in words]` (line 155). -/
def wordsLowerOf (words0 : List String) : List String :=
  (wordsOf words0).map pyLower

/-- `cleaned_words = [word for word in words_lower if word not in
self.stopwords]` (line 158). -/
def cleanedWordsOf (lex : Lexicon) (words0 : List String) : List String :=
  (wordsLowerOf words0).filter (fun w => !lex.stopwords.contains w)

/-- `num_sentences = max(len(sentences), 1)` (line 161). -/
def numSentencesOf (sentences : List String) : Nat := max sentences.length 1

/-- `num_words = max(len(words), 1)` (line 162). -/
def numWordsOf (words0 : List String) : Nat := max (wordsOf words0).length 1

/-- `num_cleaned_words = max(len(cleaned_words), 1)` (line 163). -/
def numCleanedOf (lex : Lexicon) (words0 : List String) : Nat :=
  max (cleanedWordsOf lex words0).length 1

/-- `positive_score = sum(1 for word in cleaned_words if word in
self.positive_words)` (line 167). -/
def positiveScoreOf (lex : Lexicon) (words0 : List String) : Nat :=
  ((cleanedWordsOf lex words0).filter
    (fun w => lex.positiveWords.contains w)).length

/-- `negative_score = sum(1 for word in cleaned_words if word in
self.negative_words)` (line 168). -/
def negativeScoreOf (lex : Lexicon) (words0 : List String) : Nat :=
  ((cleanedWordsOf lex words0).filter
    (fun w => lex.negativeWords.contains w)).length

/-- `TextAnalyzer.analyze_text`, parametrised by the two external NLTK
tokenizers.  Mirrors lines 141-213 of the source. -/
def analyze_text (sentTok wordTok : String → List String) (lex : Lexicon)
    (text : String) : Metrics :=
  let sentences := sentTok text
  let words0 := wordTok text
  let words := wordsOf words0
  let numSentences := numSentencesOf sentences
  let numWords := numWordsOf words0
  let numCleaned := numCleanedOf lex words0
  let positiveScore := positiveScoreOf lex words0
  let negativeScore := negativeScoreOf lex words0
  let polarityScore : ℚ :=
    ((positiveScore : ℚ) - (negativeScore : ℚ)) /
      (((positiveScore : ℚ) + (negativeScore : ℚ)) + epsilon)
  let subjectivityScore : ℚ :=
    ((positiveScore : ℚ) + (negativeScore : ℚ)) / ((numCleaned : ℚ) + epsilon)
  let avgSentenceLength : ℚ := (numWords : ℚ) / (numSentences : ℚ)
  let complexWordCount :=
    (words.filter (fun w => decide (2 < count_syllables w))).length
  let percentageComplexWords : ℚ := (complexWordCount : ℚ) / (numWords : ℚ)
  let fogIndex : ℚ := (2 / 5 : ℚ) * (avgSentenceLength + percentageComplexWords)
  let wordCount := numCleaned
  let totalSyllables := (words.map count_syllables).sum
  let syllablePerWord : ℚ := (totalSyllables : ℚ) / (numWords : ℚ)
  let personalPronouns := count_personal_pronouns text
  let totalCharacters := (words.map pyLen).sum
  let avgWordLength : ℚ := (totalCharacters : ℚ) / (numWords : ℚ)
  { positiveScore := positiveScore
    negativeScore := negativeScore
    polarityScore := polarityScore
    subjectivityScore := subjectivityScore
    avgSentenceLength := avgSentenceLength
    percentageComplexWords := percentageComplexWords
    fogIndex := fogIndex
    avgWordsPerSentence := avgSentenceLength
    complexWordCount := complexWordCount
    wordCount := wordCount
    syllablePerWord := syllablePerWord
    personalPronouns := personalPronouns
    avgWordLength := avgWordLength }

/-- `analyze_text` as a state transformer over the analyzer's attribute
record: the method reads `self.stopwords` / `self.positive_words` /
`self.negative_words` and assigns to none of them (nor to any global), so
its faithful stateful embedding returns the attribute state unchanged
alongside the computed metrics. -/
def analyze_text_st (sentTok wordTok : String → List String) (text : String)
    (lex : Lexicon) : Metrics × Lexicon :=
  (analyze_text sentTok wordTok lex text, lex)

/-- `TextAnalyzer._get_zero_metrics` (lines 235-251): all 13 fields 0. -/
def get_zero_metrics : Metrics :=
  { positiveScore := 0
    negativeScore := 0
    polarityScore := 0
    subjectivityScore := 0
    avgSentenceLength := 0
    percentageComplexWords := 0
    fogIndex := 0
    avgWordsPerSentence := 0
    complexWordCount := 0
    wordCount := 0
    syllablePerWord := 0
    personalPronouns := 0
    avgWordLength := 0 }

/-! ## load_sentiment_words (test_analysis.py lines 59-98)

File-system access is modelled by `Option (List String)` per fixed file
(`none` = file missing, or its read raised and the set kept its initial
empty value) and a flag for the directory existing. -/

/-- The list comprehension shared by both branches of
`load_sentiment_words`: keep non-blank lines, strip + lower-case each, and
drop any whose stripped lower-casing is a stopword. -/
def processSentimentLines (stopwords : List String) (lines : List String) :
    List String :=
  (lines.filter (fun w =>
      !(pyStrip w).data.isEmpty &&
        !stopwords.contains (pyLower (pyStrip w)))).map
    (fun w => pyLower (pyStrip w))

/-- `TextAnalyzer.load_sentiment_words`: a missing directory yields two
empty sets; each of `positive-words.txt` / `negative-words.txt` yields an
empty set when missing or unreadable, else its processed lines. -/
def load_sentiment_words (stopwords : List String) (dirExists : Bool)
    (posLines negLines : Option (List String)) : List String × List String :=
  if !dirExists then ([], [])
  else
    (match posLines with
     | none => []
     | some ls => processSentimentLines stopwords ls,
     match negLines with
     | none => []
     | some ls => processSentimentLines stopwords ls)

/-! ## Batch driver (test_analysis.py main, lines 254-337) -/

/-- One output row: the input identifier and URL plus the 13 metrics. -/
structure OutputRecord where
  url_id : String
  url : String
  metrics : Metrics
deriving DecidableEq

/-- The per-article loop of `main` (lines 287-314): for each input row, a
missing article file yields zero metrics; otherwise the analyzer runs and
any raised exception is caught and also yields zero metrics (`analyze_file`
catches read errors, the loop body catches the rest — both are modelled by
the `Except` result of `analyze`).  Every row appends exactly one record. -/
def runBatch (lookup : String → Option String)
    (analyze : String → Except String Metrics)
    (input : List (String × String)) : List OutputRecord :=
  input.map (fun row =>
    let metrics :=
      match lookup row.1 with
      | none => get_zero_metrics
      | some text =>
        match analyze text with
        | Except.ok m => m
        | Except.error _ => get_zero_metrics
    { url_id := row.1, url := row.2, metrics := metrics })

end Blackcoffer

namespace Blackcoffer

theorem vowelRuns_nil : vowelRuns [] = 0 := by
  rw [vowelRuns.eq_def]

theorem vowelRuns_cons (c : Char) (cs : List Char) :
    vowelRuns (c :: cs) =
      if isVowel c then 1 + vowelRuns (cs.dropWhile (fun d => isVowel d))
      else vowelRuns cs := by
  rw [vowelRuns.eq_def]

theorem syllableScan_eq_vowelRuns (cs : List Char) :
    syllableScan cs true = vowelRuns (cs.dropWhile (fun d => isVowel d)) ∧
      syllableScan cs false = vowelRuns cs := by
  induction cs with
  | nil => simp [syllableScan, vowelRuns_nil]
  | cons c cs ih =>
    by_cases h : isVowel c = true
    · constructor
      · simp only [syllableScan, h, List.dropWhile_cons, if_pos h]
        simpa using ih.1
      · rw [vowelRuns_cons, if_pos h]
        simp only [syllableScan, h]
        simpa using ih.1
    · rw [Bool.not_eq_true] at h
      refine ⟨?_, ?_⟩ <;>
        simp [syllableScan, h, List.dropWhile_cons, vowelRuns_cons, ih.2]

/-- C1: `count_syllables` agrees with the spec's reference definition
(maximal vowel runs, `es`/`ed` correction, clamp to 1) on every word, and
on the spec's examples: `cakes ↦ 1`, `running ↦ 2`. -/
theorem count_syllables_matches_spec (word : String) :
    count_syllables word = syllableCountSpec word ∧
      count_syllables "cakes" = 1 ∧ count_syllables "running" = 2 := by
  refine ⟨?_, by decide, by decide⟩
  simp only [count_syllables, syllableCountSpec, (syllableScan_eq_vowelRuns _).2]

/-- C2: the engine's pronoun metric is computed on the raw text as the
number of case-insensitive whole-word matches of `I|we|my|ours|us` minus
the number of case-sensitive whole-word matches of `US`, floored at 0; on
`"I love us. The US is great."` it returns 2. -/
theorem count_personal_pronouns_spec (sentTok wordTok : String → List String)
    (lex : Lexicon) (text : String) :
    (analyze_text sentTok wordTok lex text).personalPronouns =
      count_personal_pronouns text ∧
    count_personal_pronouns text =
      (max 0 ((pronounMatchCount text : Int) - (usMatchCount text : Int))).toNat ∧
      count_personal_pronouns "I love us. The US is great." = 2 :=
  ⟨rfl, rfl, by decide⟩

/-- Any maximal run equal to `US` lower-cases to `us`, which is one of the
pronoun alternatives. -/
theorem us_run_is_pronoun_run (r : List Char) (h : (String.mk r == "US") = true) :
    pronounWords.contains (String.mk (r.map Char.toLower)) = true := by
  have hr : String.mk r = "US" := by
    simpa using h
  have : r = ['U', 'S'] := congrArg String.data hr
  subst this
  decide

/-- C10: the `max(0, ·)` floor in `count_personal_pronouns` is never
binding: every case-sensitive `US` match is also a case-insensitive pronoun
match, so the subtraction is already non-negative and the returned count is
the raw difference of the two match counts. -/
theorem pronoun_floor_never_binding (text : String) :
    usMatchCount text ≤ pronounMatchCount text ∧
      count_personal_pronouns text = pronounMatchCount text - usMatchCount text := by
  have hle : usMatchCount text ≤ pronounMatchCount text := by
    unfold usMatchCount pronounMatchCount
    rw [← List.countP_eq_length_filter, ← List.countP_eq_length_filter]
    exact List.countP_mono_left (fun r _ h => us_run_is_pronoun_run r h)
  refine ⟨hle, ?_⟩
  unfold count_personal_pronouns
  omega

/-- A floored count `max n 1` is strictly positive after casting to `ℚ`. -/
theorem max_one_cast_pos (n : Nat) : (0 : ℚ) < ((max n 1 : Nat) : ℚ) :=
  Nat.cast_pos.mpr (lt_of_lt_of_le Nat.one_pos (le_max_right n 1))

/-- C3: each of the six ratio metrics of `analyze_text` is a quotient whose
denominator — a count floored at 1, or a sum of scores plus `epsilon` — is
strictly positive, for every text, tokenizer pair and lexicon; so no
division-by-zero branch is reachable and every metric is a well-defined
finite rational. -/
theorem ratio_metrics_finite (sentTok wordTok : String → List String)
    (lex : Lexicon) (text : String) :
    (0 : ℚ) < (numSentencesOf (sentTok text) : ℚ) ∧
    (0 : ℚ) < (numWordsOf (wordTok text) : ℚ) ∧
    (0 : ℚ) < ((positiveScoreOf lex (wordTok text) : ℚ) +
        (negativeScoreOf lex (wordTok text) : ℚ)) + epsilon ∧
    (0 : ℚ) < (numCleanedOf lex (wordTok text) : ℚ) + epsilon ∧
    (analyze_text sentTok wordTok lex text).polarityScore =
      ((positiveScoreOf lex (wordTok text) : ℚ) -
          (negativeScoreOf lex (wordTok text) : ℚ)) /
        (((positiveScoreOf lex (wordTok text) : ℚ) +
            (negativeScoreOf lex (wordTok text) : ℚ)) + epsilon) ∧
    (analyze_text sentTok wordTok lex text).subjectivityScore =
      ((positiveScoreOf lex (wordTok text) : ℚ) +
          (negativeScoreOf lex (wordTok text) : ℚ)) /
        ((numCleanedOf lex (wordTok text) : ℚ) + epsilon) ∧
    (analyze_text sentTok wordTok lex text).avgSentenceLength =
      (numWordsOf (wordTok text) : ℚ) / (numSentencesOf (sentTok text) : ℚ) ∧
    (analyze_text sentTok wordTok lex text).percentageComplexWords =
      ((((wordsOf (wordTok text)).filter
            (fun w => decide (2 < count_syllables w))).length : ℚ)) /
        (numWordsOf (wordTok text) : ℚ) ∧
    (analyze_text sentTok wordTok lex text).syllablePerWord =
      ((((wordsOf (wordTok text)).map count_syllables).sum : ℚ)) /
        (numWordsOf (wordTok text) : ℚ) ∧
    (analyze_text sentTok wordTok lex text).avgWordLength =
      ((((wordsOf (wordTok text)).map pyLen).sum : ℚ)) /
        (numWordsOf (wordTok text) : ℚ) := by
  refine ⟨max_one_cast_pos _, max_one_cast_pos _, ?_, ?_, rfl, rfl, rfl, rfl, rfl, rfl⟩
  · unfold epsilon
    positivity
  · unfold epsilon
    positivity

/-- C4: `polarityScore` is `(pos - neg) / (pos + neg + epsilon)`; it is
exactly 0 whenever both scores are 0; and on the spec's example (lexicon
`good`/`bad`, no stopwords, text `"This is good. This is bad."`) the scores
are 1 and 1 and the polarity is 0, hence within epsilon of 0. -/
theorem polarity_score_spec (sentTok wordTok : String → List String)
    (lex : Lexicon) (text : String) :
    (analyze_text sentTok wordTok lex text).polarityScore =
      ((positiveScoreOf lex (wordTok text) : ℚ) -
          (negativeScoreOf lex (wordTok text) : ℚ)) /
        (((positiveScoreOf lex (wordTok text) : ℚ) +
            (negativeScoreOf lex (wordTok text) : ℚ)) + epsilon) ∧
    (positiveScoreOf lex (wordTok text) = 0 →
      negativeScoreOf lex (wordTok text) = 0 →
      (analyze_text sentTok wordTok lex text).polarityScore = 0) ∧
    positiveScoreOf ⟨[], ["good"], ["bad"]⟩
      (wordTokenizeModel "This is good. This is bad.") = 1 ∧
    negativeScoreOf ⟨[], ["good"], ["bad"]⟩
      (wordTokenizeModel "This is good. This is bad.") = 1 ∧
    (analyze_text sentTokenizeModel wordTokenizeModel ⟨[], ["good"], ["bad"]⟩
      "This is good. This is bad.").polarityScore = 0 := by
  refine ⟨rfl, ?_, by decide, by decide, ?_⟩
  · intro hp hn
    show ((positiveScoreOf lex (wordTok text) : ℚ) -
        (negativeScoreOf lex (wordTok text) : ℚ)) /
      (((positiveScoreOf lex (wordTok text) : ℚ) +
          (negativeScoreOf lex (wordTok text) : ℚ)) + epsilon) = 0
    rw [hp, hn]
    norm_num
  · have hp : positiveScoreOf ⟨[], ["good"], ["bad"]⟩
        (wordTokenizeModel "This is good. This is bad.") = 1 := by decide
    have hn : negativeScoreOf ⟨[], ["good"], ["bad"]⟩
        (wordTokenizeModel "This is good. This is bad.") = 1 := by decide
    show ((positiveScoreOf ⟨[], ["good"], ["bad"]⟩
          (wordTokenizeModel "This is good. This is bad.") : ℚ) - _) / _ = 0
    rw [hp, hn]
    norm_num

theorem polarity_score_spec_witness :
    (analyze_text sentTokenizeModel wordTokenizeModel ⟨[], [], []⟩
      "x").polarityScore = 0 :=
  (polarity_score_spec sentTokenizeModel wordTokenizeModel ⟨[], [], []⟩
    "x").2.1 (by decide) (by decide)

/-- C7: the engine's `WORD COUNT` field is the *cleaned* (stopword-filtered)
token count floored at 1, not the raw token count; on all-stopword and on
empty text the engine reports 1, while a zero record reports 0. -/
theorem word_count_reports_cleaned (sentTok wordTok : String → List String)
    (lex : Lexicon) (text : String) :
    (analyze_text sentTok wordTok lex text).wordCount =
      max (cleanedWordsOf lex (wordTok text)).length 1 ∧
    (analyze_text sentTokenizeModel wordTokenizeModel ⟨["the"], [], []⟩
      "The the.").wordCount = 1 ∧
    (analyze_text sentTokenizeModel wordTokenizeModel ⟨["the"], [], []⟩
      "").wordCount = 1 ∧
    get_zero_metrics.wordCount = 0 :=
  ⟨rfl, by decide, by decide, rfl⟩

/-- C8: `AVG SENTENCE LENGTH` and `AVG NUMBER OF WORDS PER SENTENCE` are
the same computed value `numWords / numSentences`, reported twice. -/
theorem avg_sentence_length_duplicated (sentTok wordTok : String → List String)
    (lex : Lexicon) (text : String) :
    (analyze_text sentTok wordTok lex text).avgSentenceLength =
      (analyze_text sentTok wordTok lex text).avgWordsPerSentence ∧
    (analyze_text sentTok wordTok lex text).avgSentenceLength =
      (numWordsOf (wordTok text) : ℚ) / (numSentencesOf (sentTok text) : ℚ) :=
  ⟨rfl, rfl⟩

/-- C9: `analyze_text` is pure and deterministic: its stateful embedding
returns the analyzer's attribute state (the three lexicon sets) unchanged,
and re-running it on the post-invocation state and the same text yields an
identical record. -/
theorem analyze_text_pure (sentTok wordTok : String → List String)
    (text : String) (lex : Lexicon) :
    (analyze_text_st sentTok wordTok text lex).2 = lex ∧
    (analyze_text_st sentTok wordTok text
        (analyze_text_st sentTok wordTok text lex).2).1 =
      (analyze_text_st sentTok wordTok text lex).1 :=
  ⟨rfl, rfl⟩

/-- Words produced by `processSentimentLines` are never stopwords. -/
theorem mem_processSentimentLines (stopwords lines : List String)
    (w : String) (hw : w ∈ processSentimentLines stopwords lines) :
    w ∉ stopwords := by
  intro hmem
  unfold processSentimentLines at hw
  obtain ⟨x, hx, rfl⟩ := List.mem_map.1 hw
  obtain ⟨-, hcond⟩ := List.mem_filter.1 hx
  simp only [Bool.and_eq_true, Bool.not_eq_true'] at hcond
  rw [List.contains_eq_any_beq] at hcond
  have : stopwords.any (pyLower (pyStrip x) == ·) = true :=
    List.any_of_mem hmem (by simp)
  rw [this] at hcond
  exact absurd hcond.2 (by simp)

/-- C6: after `load_sentiment_words`, every positive word and every
negative word is outside the stopword set, whatever the word-list files
contain. -/
theorem sentiment_words_exclude_stopwords (stopwords : List String)
    (dirExists : Bool) (posLines negLines : Option (List String))
    (w : String) :
    (w ∈ (load_sentiment_words stopwords dirExists posLines negLines).1 →
      w ∉ stopwords) ∧
    (w ∈ (load_sentiment_words stopwords dirExists posLines negLines).2 →
      w ∉ stopwords) := by
  unfold load_sentiment_words
  cases dirExists with
  | false => simp
  | true =>
    constructor
    · intro hw
      cases posLines with
      | none => simp at hw
      | some ls => exact mem_processSentimentLines _ _ _ (by simpa using hw)
    · intro hw
      cases negLines with
      | none => simp at hw
      | some ls => exact mem_processSentimentLines _ _ _ (by simpa using hw)

theorem sentiment_words_exclude_stopwords_witness : "good" ∉ ["the"] :=
  (sentiment_words_exclude_stopwords ["the"] true (some ["Good", "the"])
    none "good").1 (by decide)

/-- C5: the batch driver emits exactly one record per input pair, in input
order; a record is the zero record when the text is unavailable or the
analysis raises, and exactly the engine's record otherwise. -/
theorem runBatch_one_record_per_input (lookup : String → Option String)
    (analyze : String → Except String Metrics)
    (input : List (String × String)) :
    (runBatch lookup analyze input).length = input.length ∧
    (runBatch lookup analyze input).map (fun r => (r.url_id, r.url)) = input ∧
    ∀ r ∈ runBatch lookup analyze input,
      (lookup r.url_id = none → r.metrics = get_zero_metrics) ∧
      (∀ text e, lookup r.url_id = some text →
        analyze text = Except.error e → r.metrics = get_zero_metrics) ∧
      (∀ text m, lookup r.url_id = some text →
        analyze text = Except.ok m → r.metrics = m) := by
  refine ⟨List.length_map _ _, ?_, ?_⟩
  · induction input with
    | nil => rfl
    | cons row rows ih =>
      simp only [runBatch, List.map_cons] at ih ⊢
      simp [ih]
  · intro r hr
    obtain ⟨row, -, rfl⟩ := List.mem_map.1 hr
    refine ⟨fun h0 => ?_, fun text e h1 h2 => ?_, fun text m h1 h2 => ?_⟩
    · simp only [h0]
    · simp only [h1, h2]
    · simp only [h1, h2]

theorem runBatch_one_record_per_input_witness :
    (runBatch (fun _ => none) (fun _ => Except.error "e")
        [("1", "u")]).length = 1 ∧
    ∀ r ∈ runBatch (fun _ => none) (fun _ => Except.error "e") [("1", "u")],
      r.metrics = get_zero_metrics := by
  have h := runBatch_one_record_per_input (fun _ => none)
    (fun _ => Except.error "e") [("1", "u")]
  exact ⟨h.1, fun r hr => ((h.2.2 r hr).1) rfl⟩

end Blackcoffer
